import Mathlib

/-!
# vidra_player: the platform plugin stubs

A shallow embedding of `linux/vidra_player_plugin.cc` and of
`windows/vidra_player_plugin_c_api.cpp`, with the parts of libc, GLib and the
Flutter embedder API that the two files call.

Conventions.

* A `gchar` is a byte, held in a `Nat`; byte `0` is the NUL terminator.
* A `const gchar*` is the list of bytes found from the pointer onwards.  The
  C string it denotes is `c_str p`: the bytes before the first NUL.  The end of
  the list counts as a terminator, so a list without a NUL denotes itself.
* Calls that change the world (GObject reference counts, the messenger's
  handler table, the responses handed back to the engine) pass a `World`
  explicitly.
-/

namespace Vidra

/-! ## C strings -/

/-- One byte of a C string. -/
abbrev gchar := Nat

/-- The bytes of an ASCII string literal of the source, without its NUL. -/
def c_lit (s : String) : List gchar := s.toList.map Char.toNat

/-- The C string found at a pointer: every byte before the first NUL. -/
def c_str (p : List gchar) : List gchar := p.takeWhile (fun b => b ≠ 0)

/-- The libc `strcmp`: walks both strings in step, stops at the first pair of
bytes that differ or at a NUL, and returns the difference of that pair. -/
def strcmp : List gchar → List gchar → Int
  | [], [] => 0
  | [], b :: _ => 0 - (b : Int)
  | a :: _, [] => (a : Int) - 0
  | a :: s1, b :: s2 =>
    if a ≠ b then (a : Int) - (b : Int)
    else if a = 0 then 0
    else strcmp s1 s2

/-- The GLib `g_strdup_printf`, for the formats this plugin uses: ordinary
bytes are copied, `%s` (bytes 37, 115) inserts the C string of the next
argument, `%%` inserts one `%`, and the format ends at its NUL.  No other
conversion occurs in the source; the model stops the output there. -/
def g_strdup_printf : List gchar → List (List gchar) → List gchar
  | [], _ => []
  | c :: fmt, args =>
    if c = 0 then []
    else if c = 37 then
      match fmt, args with
      | 115 :: rest, a :: more => c_str a ++ g_strdup_printf rest more
      | 37 :: rest, _ => 37 :: g_strdup_printf rest args
      | _, _ => []
    else c :: g_strdup_printf fmt args

/-! ## Flutter values, calls and responses -/

/-- The `FlValue` of the Flutter Linux embedder; floats are kept as their bit
patterns. -/
inductive FlValue where
  | null
  | bool (b : Bool)
  | int (i : Int)
  | float (bits : Nat)
  | string (s : List gchar)
  | uint8_list (l : List Nat)
  | int32_list (l : List Int)
  | int64_list (l : List Int)
  | float_list (l : List Nat)
  | list (l : List FlValue)
  | map (l : List (FlValue × FlValue))

/-- The constructor `fl_value_new_string`: copies the C string at the pointer. -/
def fl_value_new_string (p : List gchar) : FlValue := FlValue.string (c_str p)

/-- An `FlMethodCall`: the method name and the argument payload. -/
structure FlMethodCall where
  name : List gchar
  args : FlValue

/-- The accessor `fl_method_call_get_name`. -/
def fl_method_call_get_name (method_call : FlMethodCall) : List gchar := method_call.name

/-- An `FlMethodResponse`: success, error or not-implemented. -/
inductive FlMethodResponse where
  | success (result : FlValue)
  | error (code message : List gchar) (details : FlValue)
  | not_implemented

/-- The constructor `fl_method_success_response_new`. -/
def fl_method_success_response_new (result : FlValue) : FlMethodResponse :=
  FlMethodResponse.success result

/-- The constructor `fl_method_not_implemented_response_new`. -/
def fl_method_not_implemented_response_new : FlMethodResponse :=
  FlMethodResponse.not_implemented

/-! ## The OS version query -/

/-- The `struct utsname` of `<sys/utsname.h>`: six character arrays.  The
kernel leaves a NUL-terminated string in each; `c_str` reads it. -/
structure utsname where
  sysname : List gchar
  nodename : List gchar
  release : List gchar
  version : List gchar
  machine : List gchar
  domainname : List gchar

/-- The value of `struct utsname uname_data = {}`: every array is 65 NULs. -/
def utsname_zero : utsname :=
  { sysname := List.replicate 65 0, nodename := List.replicate 65 0,
    release := List.replicate 65 0, version := List.replicate 65 0,
    machine := List.replicate 65 0, domainname := List.replicate 65 0 }

/-- The system call `uname(&buf)`.  The kernel either fills the structure and
returns 0, or fails, returns -1 and leaves the structure as it was.  `kernel`
is what the running kernel reports: `some k` on success, `none` on failure. -/
def uname (kernel : Option utsname) (buf : utsname) : Int × utsname :=
  match kernel with
  | some k => (0, k)
  | none => (-1, buf)

/-- The function `get_platform_version` of `linux/vidra_player_plugin.cc`. -/
def get_platform_version (kernel : Option utsname) : FlMethodResponse :=
  let uname_data := utsname_zero
  let uname_data := (uname kernel uname_data).2
  let version := g_strdup_printf (c_lit "Linux %s") [uname_data.version]
  let result := fl_value_new_string version
  fl_method_success_response_new result

/-! ## GObject instances, the messenger and the world -/

/-- A `GObject` instance header: its reference count. -/
structure GObject where
  ref_count : Nat

/-- The `struct _VidraPlayerPlugin`: the parent instance and no field of its
own. -/
structure VidraPlayerPlugin where
  parent_instance : GObject

/-- A `gpointer` to a plugin instance: its address in `World.plugins`. -/
abbrev gpointer := Nat

/-- A binary messenger of the engine, by identity. -/
abbrev FlBinaryMessenger := Nat

/-- The method codecs of the embedder. -/
inductive FlMethodCodec where
  | standard
  | json
  deriving DecidableEq

/-- The constructor `fl_standard_method_codec_new`. -/
def fl_standard_method_codec_new : FlMethodCodec := FlMethodCodec.standard

/-- An `FlPluginRegistrar`: it owns the messenger of its engine. -/
structure FlPluginRegistrar where
  messenger : FlBinaryMessenger

/-- The accessor `fl_plugin_registrar_get_messenger`. -/
def fl_plugin_registrar_get_messenger (registrar : FlPluginRegistrar) : FlBinaryMessenger :=
  registrar.messenger

/-- An `FlMethodChannel`: a messenger, a channel name and a codec. -/
structure FlMethodChannel where
  messenger : FlBinaryMessenger
  name : List gchar
  codec : FlMethodCodec
  deriving DecidableEq

/-- The constructor `fl_method_channel_new`: the channel keeps a copy of the
name string. -/
def fl_method_channel_new (messenger : FlBinaryMessenger) (name : List gchar)
    (codec : FlMethodCodec) : FlMethodChannel :=
  { messenger := messenger, name := c_str name, codec := codec }

/-- The method-call callbacks this translation unit defines. -/
inductive FlMethodChannelMethodCallHandler where
  | method_call_cb
  deriving DecidableEq

/-- The destroy notifications this translation unit passes. -/
inductive GDestroyNotify where
  | g_object_unref
  deriving DecidableEq

/-- One entry of the handler table of the engine: what
`fl_method_channel_set_method_call_handler` stored for a channel. -/
structure MethodCallHandler where
  channel : FlMethodChannel
  handler : FlMethodChannelMethodCallHandler
  user_data : gpointer
  destroy_notify : GDestroyNotify
  deriving DecidableEq

/-- Everything the plugin reads or writes outside its own locals. -/
structure World where
  /-- What `uname` reports. -/
  kernel : Option utsname
  /-- The plugin instances by address; `none` is a finalised instance. -/
  plugins : List (Option VidraPlayerPlugin)
  /-- The method-call handlers installed on the messengers. -/
  handlers : List MethodCallHandler
  /-- The responses handed to the engine, oldest first. -/
  responses : List (FlMethodCall × FlMethodResponse)

/-- The call `g_object_new(vidra_player_plugin_get_type(), nullptr)`: a fresh
instance with one reference; `vidra_player_plugin_init` sets nothing. -/
def g_object_new (w : World) : gpointer × World :=
  let fresh : VidraPlayerPlugin := ⟨⟨1⟩⟩
  (w.plugins.length, { w with plugins := w.plugins ++ [some fresh] })

/-- The GLib `g_object_ref`: one more reference; returns its argument. -/
def g_object_ref (w : World) (object : gpointer) : gpointer × World :=
  match w.plugins[object]? with
  | some (some obj) =>
    let held : VidraPlayerPlugin := ⟨⟨obj.parent_instance.ref_count + 1⟩⟩
    (object, { w with plugins := w.plugins.set object (some held) })
  | _ => (object, w)

/-- The GLib `g_object_unref`: one reference fewer; the instance is disposed
of and finalised when the last one goes. -/
def g_object_unref (w : World) (object : gpointer) : World :=
  match w.plugins[object]? with
  | some (some obj) =>
    if obj.parent_instance.ref_count ≤ 1 then { w with plugins := w.plugins.set object none }
    else
      let left : VidraPlayerPlugin := ⟨⟨obj.parent_instance.ref_count - 1⟩⟩
      { w with plugins := w.plugins.set object (some left) }
  | _ => w

/-- The macro `VIDRA_PLAYER_PLUGIN(obj)`: a cast, the pointer is unchanged. -/
def VIDRA_PLAYER_PLUGIN (obj : gpointer) : gpointer := obj

/-- Whether a handler entry is the one for this messenger and channel name. -/
def on_channel (messenger : FlBinaryMessenger) (name : List gchar) (h : MethodCallHandler) : Bool :=
  decide (h.channel.messenger = messenger ∧ h.channel.name = c_str name)

/-- The call `fl_method_channel_set_method_call_handler`: the entry for the
channel is stored in the handler table, in place of an earlier entry for the
same messenger and name. -/
def fl_method_channel_set_method_call_handler (w : World) (channel : FlMethodChannel)
    (handler : FlMethodChannelMethodCallHandler) (user_data : gpointer)
    (destroy_notify : GDestroyNotify) : World :=
  { w with handlers :=
      { channel := channel, handler := handler, user_data := user_data,
        destroy_notify := destroy_notify } ::
      w.handlers.filter (fun h => !on_channel channel.messenger channel.name h) }

/-- The call `fl_method_call_respond(method_call, response, nullptr)`: the
response goes back to the engine for this call. -/
def fl_method_call_respond (w : World) (method_call : FlMethodCall)
    (response : FlMethodResponse) : World :=
  { w with responses := w.responses ++ [(method_call, response)] }

/-! ## linux/vidra_player_plugin.cc -/

/-- The function `vidra_player_plugin_handle_method_call`. -/
def vidra_player_plugin_handle_method_call (w : World) (_self : gpointer)
    (method_call : FlMethodCall) : World :=
  let method := fl_method_call_get_name method_call
  let response :=
    if strcmp method (c_lit "getPlatformVersion") = 0 then
      get_platform_version w.kernel
    else
      fl_method_not_implemented_response_new
  fl_method_call_respond w method_call response

/-- The function `method_call_cb`. -/
def method_call_cb (w : World) (_channel : FlMethodChannel) (method_call : FlMethodCall)
    (user_data : gpointer) : World :=
  let plugin := VIDRA_PLAYER_PLUGIN user_data
  vidra_player_plugin_handle_method_call w plugin method_call

/-- The function `vidra_player_plugin_register_with_registrar`. -/
def vidra_player_plugin_register_with_registrar (w : World) (registrar : FlPluginRegistrar) : World :=
  let created := g_object_new w
  let plugin := VIDRA_PLAYER_PLUGIN created.1
  let w := created.2
  let codec := fl_standard_method_codec_new
  let channel :=
    fl_method_channel_new (fl_plugin_registrar_get_messenger registrar)
      (c_lit "vidra_player") codec
  let held := g_object_ref w plugin
  let w := fl_method_channel_set_method_call_handler held.2 channel
    FlMethodChannelMethodCallHandler.method_call_cb held.1 GDestroyNotify.g_object_unref
  g_object_unref w plugin

/-- The engine side of a channel: a method call that arrives on a messenger
under a channel name is decoded and passed to the handler installed for that
channel; without a handler nothing of this plugin runs. -/
def deliver_method_call (w : World) (messenger : FlBinaryMessenger) (name : List gchar)
    (method_call : FlMethodCall) : World :=
  match w.handlers.find? (on_channel messenger name) with
  | some h =>
    match h.handler with
    | FlMethodChannelMethodCallHandler.method_call_cb =>
      method_call_cb w h.channel method_call h.user_data
  | none => w

/-- The empty world of a freshly started engine on a given kernel. -/
def World.start (kernel : Option utsname) : World :=
  { kernel := kernel, plugins := [], handlers := [], responses := [] }

/-! ## windows/vidra_player_plugin_c_api.cpp -/

/-- The engine handle `FlutterDesktopPluginRegistrarRef`, by identity. -/
abbrev FlutterDesktopPluginRegistrarRef := Nat

/-- The three kinds of response of the data model. -/
inductive ResponseKind where
  | success
  | error
  | not_implemented
  deriving DecidableEq

/-- The kind of a Linux response. -/
def FlMethodResponse.kind : FlMethodResponse → ResponseKind
  | FlMethodResponse.success _ => ResponseKind.success
  | FlMethodResponse.error _ _ _ => ResponseKind.error
  | FlMethodResponse.not_implemented => ResponseKind.not_implemented

/-- What a `flutter::MethodResult` was completed with: `Success(value)` with a
string value, `Error(code, message)` or `NotImplemented()`. -/
inductive MethodResult where
  | Success (value : List gchar)
  | Error (code message : List gchar)
  | NotImplemented
  deriving DecidableEq

/-- The kind of a Windows result. -/
def MethodResult.kind : MethodResult → ResponseKind
  | MethodResult.Success _ => ResponseKind.success
  | MethodResult.Error _ _ => ResponseKind.error
  | MethodResult.NotImplemented => ResponseKind.not_implemented

namespace flutter

/-- The wrapper `flutter::PluginRegistrarWindows`: the engine handle it wraps
and the number of plugins handed to it with `AddPlugin`. -/
structure PluginRegistrarWindows where
  registrar : FlutterDesktopPluginRegistrarRef
  plugins : Nat
  deriving DecidableEq

/-- The singleton `flutter::PluginRegistrarManager`: its map from engine
handles to the wrappers it owns. -/
structure PluginRegistrarManager where
  registrars_ : List (FlutterDesktopPluginRegistrarRef × PluginRegistrarWindows)
  deriving DecidableEq

end flutter

/-- The calls of interest made on the Windows side, in order. -/
inductive WindowsCall where
  | GetRegistrar (registrar_ref : FlutterDesktopPluginRegistrarRef)
  | RegisterWithRegistrar (registrar : FlutterDesktopPluginRegistrarRef)
  deriving DecidableEq

/-- One entry of the handler table of the Windows engine: the messenger (by
the handle of its registrar), the channel name, the codec and the plugin
instance the handler is bound to. -/
structure WindowsHandler where
  messenger : FlutterDesktopPluginRegistrarRef
  name : List gchar
  codec : FlMethodCodec
  plugin : Nat
  deriving DecidableEq

/-- Everything the Windows component reads or writes outside its locals. -/
structure WindowsWorld where
  /-- The singleton returned by `PluginRegistrarManager::GetInstance()`. -/
  manager : flutter.PluginRegistrarManager
  /-- The method-call handlers installed on the messengers. -/
  handlers : List WindowsHandler
  /-- The calls made so far, oldest first. -/
  calls : List WindowsCall
  deriving DecidableEq

namespace flutter

/-- The member `PluginRegistrarManager::GetRegistrar<PluginRegistrarWindows>`:
emplaces a wrapper for the handle when the map has none and returns the wrapper
the map holds, as a pointer (the key of the map entry). -/
def PluginRegistrarManager.GetRegistrar (w : WindowsWorld)
    (registrar_ref : FlutterDesktopPluginRegistrarRef) :
    FlutterDesktopPluginRegistrarRef × WindowsWorld :=
  let w := { w with calls := w.calls ++ [WindowsCall.GetRegistrar registrar_ref] }
  match w.manager.registrars_.find? (fun e => e.1 = registrar_ref) with
  | some _ => (registrar_ref, w)
  | none =>
    (registrar_ref,
      { w with manager :=
        ⟨w.manager.registrars_ ++ [(registrar_ref, ⟨registrar_ref, 0⟩)]⟩ })

end flutter

namespace vidra_player

/-- Modelled from the spec: the body of `VidraPlayerPlugin::RegisterWithRegistrar`
is in `windows/vidra_player_plugin.cpp`, which is not among the sources; only
its declaration in `vidra_player_plugin.h` is.  Section 4.1: construct one
dispatcher instance and attach it to the channel named "vidra_player" on the
messaging substrate of the host, using the standard codec. -/
def VidraPlayerPlugin.RegisterWithRegistrar (w : WindowsWorld)
    (registrar : FlutterDesktopPluginRegistrarRef) : WindowsWorld :=
  let w := { w with calls := w.calls ++ [WindowsCall.RegisterWithRegistrar registrar] }
  let owned := ((w.manager.registrars_.find? (fun e => e.1 = registrar)).map
    (fun e => e.2.plugins)).getD 0
  { w with
    manager := ⟨w.manager.registrars_.map (fun e =>
      if e.1 = registrar then (e.1, { e.2 with plugins := e.2.plugins + 1 }) else e)⟩
    handlers :=
      { messenger := registrar, name := c_lit "vidra_player",
        codec := FlMethodCodec.standard, plugin := owned } ::
      w.handlers.filter (fun h =>
        !decide (h.messenger = registrar ∧ h.name = c_lit "vidra_player")) }

/-- Modelled from the spec: the body of `VidraPlayerPlugin::HandleMethodCall`
is in `windows/vidra_player_plugin.cpp`, which is not among the sources; only
its declaration in `vidra_player_plugin.h` is.  Section 4.2: if the method name
equals "getPlatformVersion", the OS version is formatted as
"<OSFamily> <version>" and wrapped as a successful string-valued response;
otherwise the response is not-implemented.  The family name and the version
are what the host OS answers. -/
def VidraPlayerPlugin.HandleMethodCall (os_family os_version : List gchar)
    (method_name : List gchar) : MethodResult :=
  if method_name = c_lit "getPlatformVersion" then
    MethodResult.Success (os_family ++ c_lit " " ++ os_version)
  else
    MethodResult.NotImplemented

end vidra_player

/-- The function `VidraPlayerPluginCApiRegisterWithRegistrar`. -/
def VidraPlayerPluginCApiRegisterWithRegistrar (w : WindowsWorld)
    (registrar : FlutterDesktopPluginRegistrarRef) : WindowsWorld :=
  let resolved := flutter.PluginRegistrarManager.GetRegistrar w registrar
  vidra_player.VidraPlayerPlugin.RegisterWithRegistrar resolved.2 resolved.1

/-! ## Lemmas on the C string functions -/

theorem c_str_nil : c_str [] = [] := rfl

theorem c_str_cons_zero (p : List gchar) : c_str (0 :: p) = [] := by
  simp [c_str, List.takeWhile]

theorem c_str_cons_pos (a : gchar) (p : List gchar) (h : a ≠ 0) :
    c_str (a :: p) = a :: c_str p := by
  simp [c_str, List.takeWhile, h]

/-- Function `strcmp` returns 0 exactly when both pointers denote the same C
string. -/
theorem strcmp_eq_zero_iff (s1 s2 : List gchar) : strcmp s1 s2 = 0 ↔ c_str s1 = c_str s2 := by
  induction s1 generalizing s2 with
  | nil =>
    cases s2 with
    | nil => simp [strcmp]
    | cons b s2 =>
      by_cases hb : b = 0
      · subst hb; simp [strcmp, c_str_nil, c_str_cons_zero]
      · simp [strcmp, c_str_nil, c_str_cons_pos b s2 hb, hb]
  | cons a s1 ih =>
    cases s2 with
    | nil =>
      by_cases ha : a = 0
      · subst ha; simp [strcmp, c_str_nil, c_str_cons_zero]
      · simp [strcmp, c_str_nil, c_str_cons_pos a s1 ha, ha]
    | cons b s2 =>
      by_cases hab : a = b
      · subst hab
        by_cases ha : a = 0
        · subst ha; simp [strcmp, c_str_cons_zero]
        · simp [strcmp, ha, c_str_cons_pos a _ ha, ih]
      · have hne : (a : Int) - (b : Int) ≠ 0 := sub_ne_zero.mpr (by exact_mod_cast hab)
        by_cases ha : a = 0
        · subst ha
          have hb : b ≠ 0 := fun h => hab h.symm
          simp [strcmp, hab, hb, c_str_cons_zero, c_str_cons_pos b s2 hb]
        · by_cases hb : b = 0
          · subst hb
            simp [strcmp, hab, ha, c_str_cons_zero, c_str_cons_pos a s1 ha]
          · simp [strcmp, hab, hne, c_str_cons_pos a s1 ha, c_str_cons_pos b s2 hb]

/-- A C string has no NUL in it, so reading it again gives the same bytes,
also behind bytes that are not NUL. -/
theorem c_str_append_c_str (l p : List gchar) (hl : ∀ b ∈ l, b ≠ 0) :
    c_str (l ++ c_str p) = l ++ c_str p := by
  induction l with
  | nil =>
    simp only [List.nil_append]
    induction p with
    | nil => rfl
    | cons a p ih =>
      by_cases ha : a = 0
      · subst ha; simp [c_str_cons_zero, c_str_nil]
      · rw [c_str_cons_pos a p ha, c_str_cons_pos a _ ha, ih]
  | cons a l ih =>
    have ha : a ≠ 0 := hl a (List.mem_cons_self a l)
    rw [List.cons_append, c_str_cons_pos a _ ha, ih (fun b hb => hl b (List.mem_cons_of_mem a hb))]

/-- The format "Linux %s" prints the literal "Linux " and then the C string
of its argument. -/
theorem g_strdup_printf_Linux (version : List gchar) :
    g_strdup_printf (c_lit "Linux %s") [version] = c_lit "Linux " ++ c_str version := by
  simp [g_strdup_printf, c_lit]

/-- What `get_platform_version` returns, in closed form. -/
theorem get_platform_version_eq (kernel : Option utsname) :
    get_platform_version kernel =
      FlMethodResponse.success
        (FlValue.string (c_lit "Linux " ++ c_str (uname kernel utsname_zero).2.version)) := by
  simp only [get_platform_version, fl_method_success_response_new, fl_value_new_string,
    g_strdup_printf_Linux]
  rw [c_str_append_c_str _ _ (by decide)]

/-- What the dispatcher does, in closed form: of the world only the list of
responses changes, by one entry for this call. -/
theorem handle_method_call_eq (w : World) (self : gpointer) (method_call : FlMethodCall) :
    vidra_player_plugin_handle_method_call w self method_call =
      { w with responses := w.responses ++ [(method_call,
          if c_str method_call.name = c_lit "getPlatformVersion" then
            get_platform_version w.kernel
          else FlMethodResponse.not_implemented)] } := by
  have hlit : c_str (c_lit "getPlatformVersion") = c_lit "getPlatformVersion" := by decide
  simp only [vidra_player_plugin_handle_method_call, fl_method_call_respond,
    fl_method_call_get_name, fl_method_not_implemented_response_new, strcmp_eq_zero_iff, hlit]

/-! ## Lemmas on the handler table -/

theorem find_filter_of_imp {α : Type} (p q : α → Bool) (l : List α)
    (h : ∀ x, p x = true → q x = true) : (l.filter q).find? p = l.find? p := by
  induction l with
  | nil => rfl
  | cons x l ih =>
    by_cases hq : q x = true
    · rw [List.filter_cons_of_pos hq]
      simp only [List.find?_cons, ih]
    · have hp : p x = false := by
        cases hpx : p x with
        | false => rfl
        | true => exact absurd (h x hpx) hq
      rw [List.filter_cons_of_neg hq, List.find?_cons, hp, ih]

theorem filter_filter_not {α : Type} (p : α → Bool) (l : List α) :
    (l.filter (fun x => !p x)).filter p = [] := by
  induction l with
  | nil => rfl
  | cons x l ih =>
    cases hp : p x with
    | false =>
      rw [List.filter_cons_of_pos (by simp [hp]), List.filter_cons_of_neg (by simp [hp]), ih]
    | true =>
      rw [List.filter_cons_of_neg (by simp [hp]), ih]

/-- Registration, in closed form: one instance is created and ends with the one
reference the handler holds, and the handler table gets the entry for the
channel in place of any earlier entry for it. -/
theorem register_with_registrar_eq (w : World) (registrar : FlPluginRegistrar) :
    vidra_player_plugin_register_with_registrar w registrar =
      { w with
        plugins := w.plugins ++ [some ⟨⟨1⟩⟩]
        handlers :=
          { channel := ⟨registrar.messenger, c_lit "vidra_player", FlMethodCodec.standard⟩,
            handler := FlMethodChannelMethodCallHandler.method_call_cb,
            user_data := w.plugins.length,
            destroy_notify := GDestroyNotify.g_object_unref } ::
          w.handlers.filter
            (fun h => !on_channel registrar.messenger (c_lit "vidra_player") h) } := by
  have hlit : c_str (c_lit "vidra_player") = c_lit "vidra_player" := by decide
  simp [vidra_player_plugin_register_with_registrar, g_object_new, g_object_ref,
    g_object_unref, VIDRA_PLAYER_PLUGIN, fl_method_channel_set_method_call_handler,
    fl_method_channel_new, fl_plugin_registrar_get_messenger, fl_standard_method_codec_new,
    hlit]

/-! ## The claims -/

/-- C1: in the Linux dispatcher, for every method name that is not exactly
"getPlatformVersion", the response passed to `fl_method_call_respond` is the
not-implemented response (so neither a success nor an error response). -/
theorem C1_other_names_not_implemented (w : World) (self : gpointer)
    (method_call : FlMethodCall)
    (h : c_str method_call.name ≠ c_lit "getPlatformVersion") :
    (vidra_player_plugin_handle_method_call w self method_call).responses =
      w.responses ++ [(method_call, FlMethodResponse.not_implemented)] := by
  rw [handle_method_call_eq]
  simp only [if_neg h]

/-- C1 at the names "foo", the empty name, a different letter case, and names
with "getPlatformVersion" as a proper suffix or a proper beginning. -/
theorem C1_other_names_not_implemented_witness :
    (c_str (c_lit "foo") ≠ c_lit "getPlatformVersion" ∧
      (vidra_player_plugin_handle_method_call (World.start none) 0
          ⟨c_lit "foo", FlValue.null⟩).responses =
        (World.start none).responses ++
          [(⟨c_lit "foo", FlValue.null⟩, FlMethodResponse.not_implemented)]) ∧
    (vidra_player_plugin_handle_method_call (World.start none) 0
        ⟨c_lit "", FlValue.null⟩).responses =
      (World.start none).responses ++
        [(⟨c_lit "", FlValue.null⟩, FlMethodResponse.not_implemented)] ∧
    (vidra_player_plugin_handle_method_call (World.start none) 0
        ⟨c_lit "getplatformversion", FlValue.null⟩).responses =
      (World.start none).responses ++
        [(⟨c_lit "getplatformversion", FlValue.null⟩, FlMethodResponse.not_implemented)] ∧
    (vidra_player_plugin_handle_method_call (World.start none) 0
        ⟨c_lit "xgetPlatformVersion", FlValue.null⟩).responses =
      (World.start none).responses ++
        [(⟨c_lit "xgetPlatformVersion", FlValue.null⟩, FlMethodResponse.not_implemented)] ∧
    (vidra_player_plugin_handle_method_call (World.start none) 0
        ⟨c_lit "getPlatformVersion2", FlValue.null⟩).responses =
      (World.start none).responses ++
        [(⟨c_lit "getPlatformVersion2", FlValue.null⟩, FlMethodResponse.not_implemented)] :=
  ⟨⟨by decide, C1_other_names_not_implemented _ _ _ (by decide)⟩,
    C1_other_names_not_implemented _ _ _ (by decide),
    C1_other_names_not_implemented _ _ _ (by decide),
    C1_other_names_not_implemented _ _ _ (by decide),
    C1_other_names_not_implemented _ _ _ (by decide)⟩

/-- C2: in the Linux dispatcher, for the method name "getPlatformVersion" and
whatever `uname` leaves in the structure, the response is a success response
whose value is a non-empty string that starts with "Linux". -/
theorem C2_getPlatformVersion_success (w : World) (self : gpointer)
    (method_call : FlMethodCall)
    (h : c_str method_call.name = c_lit "getPlatformVersion") :
    ∃ value : List gchar,
      (vidra_player_plugin_handle_method_call w self method_call).responses =
        w.responses ++ [(method_call, FlMethodResponse.success (FlValue.string value))] ∧
      value ≠ [] ∧ c_lit "Linux" <+: value := by
  refine ⟨c_lit "Linux " ++ c_str (uname w.kernel utsname_zero).2.version, ?_, ?_, ?_⟩
  · rw [handle_method_call_eq]
    simp only [if_pos h, get_platform_version_eq]
  · have hl : c_lit "Linux " = 76 :: c_lit "inux " := by decide
    rw [hl]
    exact List.cons_ne_nil _ _
  · have hl : c_lit "Linux " = c_lit "Linux" ++ c_lit " " := by decide
    exact ⟨c_lit " " ++ c_str (uname w.kernel utsname_zero).2.version, by
      rw [hl, List.append_assoc]⟩

/-- C2 at a kernel that reports a version, with a name buffer that has bytes
behind its terminator. -/
theorem C2_getPlatformVersion_success_witness :
    c_str (c_lit "getPlatformVersion" ++ [0, 120]) = c_lit "getPlatformVersion" ∧
    ∃ value : List gchar,
      (vidra_player_plugin_handle_method_call
          (World.start (some { utsname_zero with version := c_lit "#1 SMP" ++ [0] })) 0
          ⟨c_lit "getPlatformVersion" ++ [0, 120], FlValue.null⟩).responses =
        (World.start (some { utsname_zero with version := c_lit "#1 SMP" ++ [0] })).responses ++
          [(⟨c_lit "getPlatformVersion" ++ [0, 120], FlValue.null⟩,
            FlMethodResponse.success (FlValue.string value))] ∧
      value ≠ [] ∧ c_lit "Linux" <+: value :=
  ⟨by decide, C2_getPlatformVersion_success _ _ _ (by decide)⟩

/-- C3: `get_platform_version` returns a success response whose string value
is "Linux", one space, and the NUL-terminated contents of the version field
that `uname` left; no other field of the structure has any influence. -/
theorem C3_value_is_Linux_space_version (u : utsname) :
    get_platform_version (some u) =
      FlMethodResponse.success
        (FlValue.string (c_lit "Linux" ++ c_lit " " ++ c_str u.version)) ∧
    ∀ sysname nodename release machine domainname : List gchar,
      get_platform_version
          (some { sysname := sysname, nodename := nodename, release := release,
                  version := u.version, machine := machine, domainname := domainname }) =
        get_platform_version (some u) := by
  have hl : c_lit "Linux " = c_lit "Linux" ++ c_lit " " := by decide
  refine ⟨?_, ?_⟩
  · rw [get_platform_version_eq, hl]; rfl
  · intro sysname nodename release machine domainname
    rw [get_platform_version_eq, get_platform_version_eq]; rfl

/-- C4: the Linux dispatcher is stateless and deterministic: a dispatch leaves
the kernel answer, the plugin instances and the handler table as they were, and
dispatching the same call a second time sends a response equal to the first. -/
theorem C4_dispatch_twice_equal (w : World) (self : gpointer) (method_call : FlMethodCall) :
    (vidra_player_plugin_handle_method_call w self method_call).kernel = w.kernel ∧
    (vidra_player_plugin_handle_method_call w self method_call).plugins = w.plugins ∧
    (vidra_player_plugin_handle_method_call w self method_call).handlers = w.handlers ∧
    ∃ response : FlMethodResponse,
      (vidra_player_plugin_handle_method_call w self method_call).responses =
        w.responses ++ [(method_call, response)] ∧
      (vidra_player_plugin_handle_method_call
          (vidra_player_plugin_handle_method_call w self method_call) self
          method_call).responses =
        w.responses ++ [(method_call, response)] ++ [(method_call, response)] := by
  refine ⟨by rw [handle_method_call_eq], by rw [handle_method_call_eq],
    by rw [handle_method_call_eq], ?_⟩
  refine ⟨if c_str method_call.name = c_lit "getPlatformVersion" then
      get_platform_version w.kernel else FlMethodResponse.not_implemented, ?_, ?_⟩
  · rw [handle_method_call_eq]
  · rw [handle_method_call_eq, handle_method_call_eq]

/-- C5: the Linux dispatcher ignores the argument payload: two calls with the
same method name and any arguments get equal responses. -/
theorem C5_arguments_ignored (w : World) (self : gpointer) (name : List gchar)
    (args1 args2 : FlValue) :
    ∃ response : FlMethodResponse,
      (vidra_player_plugin_handle_method_call w self ⟨name, args1⟩).responses =
        w.responses ++ [(⟨name, args1⟩, response)] ∧
      (vidra_player_plugin_handle_method_call w self ⟨name, args2⟩).responses =
        w.responses ++ [(⟨name, args2⟩, response)] := by
  refine ⟨if c_str name = c_lit "getPlatformVersion" then
      get_platform_version w.kernel else FlMethodResponse.not_implemented, ?_, ?_⟩
  · rw [handle_method_call_eq]
  · rw [handle_method_call_eq]

/-- C6: dispatch is total on the Linux side: for every call, `method_call_cb`
and the dispatcher it calls respond to the call exactly once, with a success or
a not-implemented response and never with an error response. -/
theorem C6_dispatch_total (w : World) (channel : FlMethodChannel)
    (method_call : FlMethodCall) (user_data : gpointer) :
    ∃ response : FlMethodResponse,
      (method_call_cb w channel method_call user_data).responses =
        w.responses ++ [(method_call, response)] ∧
      (vidra_player_plugin_handle_method_call w user_data method_call).responses =
        w.responses ++ [(method_call, response)] ∧
      ((∃ value, response = FlMethodResponse.success value) ∨
        response = FlMethodResponse.not_implemented) ∧
      ∀ code message details, response ≠ FlMethodResponse.error code message details := by
  by_cases h : c_str method_call.name = c_lit "getPlatformVersion"
  · refine ⟨get_platform_version w.kernel, ?_, ?_, ?_, ?_⟩
    · simp only [method_call_cb, VIDRA_PLAYER_PLUGIN, handle_method_call_eq, if_pos h]
    · simp only [handle_method_call_eq, if_pos h]
    · exact Or.inl ⟨_, get_platform_version_eq w.kernel⟩
    · intro code message details
      rw [get_platform_version_eq]
      exact fun hne => FlMethodResponse.noConfusion hne
  · refine ⟨FlMethodResponse.not_implemented, ?_, ?_, Or.inr rfl, ?_⟩
    · simp only [method_call_cb, VIDRA_PLAYER_PLUGIN, handle_method_call_eq, if_neg h]
    · simp only [handle_method_call_eq, if_neg h]
    · intro code message details hne
      exact FlMethodResponse.noConfusion hne

/-- C7: `vidra_player_plugin_register_with_registrar` puts exactly one entry
into the handler table: for the channel "vidra_player" on the messenger of the
registrar, with the standard method codec, the callback `method_call_cb` and
the new plugin instance, which the entry keeps alive.  A call delivered on that
channel is answered exactly as `vidra_player_plugin_handle_method_call` answers
it, and the handler of no other channel changes. -/
theorem C7_register_installs_dispatcher (w : World) (registrar : FlPluginRegistrar) :
    (vidra_player_plugin_register_with_registrar w registrar).handlers =
      { channel := ⟨fl_plugin_registrar_get_messenger registrar, c_lit "vidra_player",
          FlMethodCodec.standard⟩,
        handler := FlMethodChannelMethodCallHandler.method_call_cb,
        user_data := w.plugins.length,
        destroy_notify := GDestroyNotify.g_object_unref } ::
      w.handlers.filter
        (fun h => !on_channel (fl_plugin_registrar_get_messenger registrar)
          (c_lit "vidra_player") h) ∧
    (vidra_player_plugin_register_with_registrar w registrar).handlers.filter
        (on_channel (fl_plugin_registrar_get_messenger registrar) (c_lit "vidra_player")) =
      [{ channel := ⟨fl_plugin_registrar_get_messenger registrar, c_lit "vidra_player",
           FlMethodCodec.standard⟩,
         handler := FlMethodChannelMethodCallHandler.method_call_cb,
         user_data := w.plugins.length,
         destroy_notify := GDestroyNotify.g_object_unref }] ∧
    (vidra_player_plugin_register_with_registrar w registrar).plugins =
      w.plugins ++ [some ⟨⟨1⟩⟩] ∧
    (∀ method_call : FlMethodCall,
      deliver_method_call (vidra_player_plugin_register_with_registrar w registrar)
          (fl_plugin_registrar_get_messenger registrar) (c_lit "vidra_player") method_call =
        vidra_player_plugin_handle_method_call
          (vidra_player_plugin_register_with_registrar w registrar) w.plugins.length
          method_call) ∧
    ∀ (messenger : FlBinaryMessenger) (name : List gchar),
      ¬ (messenger = fl_plugin_registrar_get_messenger registrar ∧
          c_str name = c_lit "vidra_player") →
      (vidra_player_plugin_register_with_registrar w registrar).handlers.find?
          (on_channel messenger name) =
        w.handlers.find? (on_channel messenger name) := by
  have hlit : c_str (c_lit "vidra_player") = c_lit "vidra_player" := by decide
  have hself :
      on_channel registrar.messenger (c_lit "vidra_player")
        { channel := ⟨registrar.messenger, c_lit "vidra_player", FlMethodCodec.standard⟩,
          handler := FlMethodChannelMethodCallHandler.method_call_cb,
          user_data := w.plugins.length,
          destroy_notify := GDestroyNotify.g_object_unref } = true := by
    simp [on_channel, hlit]
  rw [register_with_registrar_eq]
  simp only [fl_plugin_registrar_get_messenger]
  refine ⟨trivial, ?_, trivial, ?_, ?_⟩
  · rw [List.filter_cons_of_pos hself, filter_filter_not]
  · intro method_call
    simp only [deliver_method_call, List.find?_cons, hself, method_call_cb, VIDRA_PLAYER_PLUGIN]
  · intro messenger name hne
    have hother :
        on_channel messenger name
          { channel := ⟨registrar.messenger, c_lit "vidra_player", FlMethodCodec.standard⟩,
            handler := FlMethodChannelMethodCallHandler.method_call_cb,
            user_data := w.plugins.length,
            destroy_notify := GDestroyNotify.g_object_unref } = false := by
      simp only [on_channel, decide_eq_false_iff_not]
      rintro ⟨h1, h2⟩
      exact hne ⟨h1.symm, h2.symm⟩
    rw [List.find?_cons, hother]
    apply find_filter_of_imp
    intro x hx
    simp only [on_channel, decide_eq_true_eq] at hx
    simp only [on_channel, hlit, Bool.not_eq_true', decide_eq_false_iff_not]
    rintro ⟨h1, h2⟩
    exact hne ⟨hx.1.symm.trans h1, hx.2.symm.trans h2⟩

/-- C7 on a fresh engine: after registration on messenger 5, the lookup for
the channel "other" on messenger 5 finds what it found before. -/
theorem C7_register_installs_dispatcher_witness :
    ¬ ((5 : FlBinaryMessenger) = fl_plugin_registrar_get_messenger ⟨5⟩ ∧
        c_str (c_lit "other") = c_lit "vidra_player") ∧
    (vidra_player_plugin_register_with_registrar (World.start none) ⟨5⟩).handlers.find?
        (on_channel 5 (c_lit "other")) =
      (World.start none).handlers.find? (on_channel 5 (c_lit "other")) :=
  ⟨by decide,
    (C7_register_installs_dispatcher (World.start none) ⟨5⟩).2.2.2.2 5 (c_lit "other")
      (by decide)⟩

/-- C8: when `uname` fails it returns -1 and leaves the zeroed structure as it
was, and `get_platform_version` still returns a success response, whose value
is exactly "Linux " (the family name, the space and an empty version). -/
theorem C8_uname_failure_still_success :
    uname none utsname_zero = (-1, utsname_zero) ∧
    get_platform_version none =
      FlMethodResponse.success (FlValue.string (c_lit "Linux ")) ∧
    (get_platform_version none).kind = ResponseKind.success := by
  have hz : c_str (uname none utsname_zero).2.version = [] := by decide
  refine ⟨rfl, ?_, ?_⟩
  · rw [get_platform_version_eq, hz, List.append_nil]
  · rw [get_platform_version_eq]; rfl

/-- C9: `VidraPlayerPluginCApiRegisterWithRegistrar` resolves the handle once
through the `PluginRegistrarManager` and forwards the result to
`VidraPlayerPlugin::RegisterWithRegistrar` exactly once; and for every method
name `VidraPlayerPlugin::HandleMethodCall` yields the same kind of response as
the Linux dispatcher: a success with a string that begins with the OS family
for "getPlatformVersion", not-implemented for every other name. -/
theorem C9_windows_same_dispatch (ww : WindowsWorld)
    (registrar : FlutterDesktopPluginRegistrarRef) (os_family os_version : List gchar)
    (w : World) (self : gpointer) (method_call : FlMethodCall) :
    (VidraPlayerPluginCApiRegisterWithRegistrar ww registrar).calls =
      ww.calls ++
        [WindowsCall.GetRegistrar registrar, WindowsCall.RegisterWithRegistrar registrar] ∧
    ∃ response : FlMethodResponse,
      (vidra_player_plugin_handle_method_call w self method_call).responses =
        w.responses ++ [(method_call, response)] ∧
      (vidra_player.VidraPlayerPlugin.HandleMethodCall os_family os_version
          (c_str method_call.name)).kind = response.kind ∧
      vidra_player.VidraPlayerPlugin.HandleMethodCall os_family os_version
          (c_str method_call.name) =
        (if c_str method_call.name = c_lit "getPlatformVersion" then
          MethodResult.Success (os_family ++ c_lit " " ++ os_version)
        else MethodResult.NotImplemented) ∧
      response =
        (if c_str method_call.name = c_lit "getPlatformVersion" then
          FlMethodResponse.success (FlValue.string
            (c_lit "Linux" ++ c_lit " " ++ c_str (uname w.kernel utsname_zero).2.version))
        else FlMethodResponse.not_implemented) := by
  have hl : c_lit "Linux " = c_lit "Linux" ++ c_lit " " := by decide
  refine ⟨?_, ?_⟩
  · simp only [VidraPlayerPluginCApiRegisterWithRegistrar,
      vidra_player.VidraPlayerPlugin.RegisterWithRegistrar,
      flutter.PluginRegistrarManager.GetRegistrar]
    split <;> simp
  · by_cases h : c_str method_call.name = c_lit "getPlatformVersion"
    · refine ⟨get_platform_version w.kernel, ?_, ?_, ?_, ?_⟩
      · simp only [handle_method_call_eq, if_pos h]
      · rw [get_platform_version_eq]
        simp only [vidra_player.VidraPlayerPlugin.HandleMethodCall, if_pos h,
          MethodResult.kind, FlMethodResponse.kind]
      · rfl
      · rw [if_pos h, get_platform_version_eq, hl]
    · refine ⟨FlMethodResponse.not_implemented, ?_, ?_, ?_, ?_⟩
      · simp only [handle_method_call_eq, if_neg h]
      · simp only [vidra_player.VidraPlayerPlugin.HandleMethodCall, if_neg h,
          MethodResult.kind, FlMethodResponse.kind]
      · rfl
      · rw [if_neg h]

end Vidra
